import Mathlib

/-
Formal model of the safe expression evaluator and the calculator session of
src/python5.py (a single-file tkinter calculator).

Modelling conventions, fixed once for the whole file:
* Python ints are arbitrary precision and are modelled exactly as ℤ.
* Python floats are modelled as exact rational numbers (ℚ).  IEEE-754
  rounding and overflow-to-infinity are not modelled; every concrete float
  appearing in a theorem below is exactly representable, so no statement
  depends on rounding.  The magnitudes of irrational library results
  (math.sqrt, sin, cos, tan, log, log10, and non-integral powers) are
  abstracted to 0 by explicitly named *Approx definitions; no theorem in this
  file depends on those magnitudes, only on totality and domain errors.
* Complex values carry no payload: every property proved here depends only on
  a value being complex, never on its components.
* The lexer and parser model the behaviour of CPython's tokenizer and
  ast.parse(expr, mode='eval') (the source delegates stage 1 and 2 to them)
  restricted to the character set reachable from calculator input, with
  CPython's eval-mode line structure (leading blank/comment lines skipped,
  leading indentation a syntax error, a newline at parenthesis depth 0
  terminating the expression, backslash-newline continuation), comments,
  and keyword arguments in calls (parsed and, like _eval does with
  node.keywords, never evaluated).  Inputs using unmodelled Python syntax
  (string/bytes literals, comparisons, language keywords, underscores in
  numeric literals, attribute access, brackets) fail in this model; in
  CPython they either fail to tokenize/parse or parse to a node kind that
  _eval rejects, so the final evaluate outcome (failure) agrees; the exact
  message strings of failures are approximated and no theorem pins them
  down.
-/

set_option allowUnsafeReducibility true in
attribute [semireducible] Rat.mul Rat.add Rat.sub Rat.inv

/-- Python constant values as they appear in `ast.Constant` nodes reachable
from calculator input: ints, floats, bools (the keywords `True` / `False`),
`None`, and imaginary literals such as `2j`. -/
inductive PyConst where
  | int (z : ℤ)
  | float (q : ℚ)
  | bool (b : Bool)
  | noneV
  | complexLit
deriving DecidableEq

/-- Runtime values that can flow through `_eval`: Python ints, floats, bools
(booleans leak through the `isinstance(node.value, (int, float))` check
because `bool` is a subclass of `int` in Python), and complex numbers
(which arise from `**` on a negative base with non-integral exponent, and
from imaginary literals via the `ast.Num` deprecation shim). -/
inductive Value where
  | int (z : ℤ)
  | float (q : ℚ)
  | bool (b : Bool)
  | complex
deriving DecidableEq

/-- Python exception values relevant to `safe_eval_expr`.  Internally the code
can raise ValueError, ZeroDivisionError, TypeError and (from `ast.parse`)
SyntaxError; the `except Exception` at the function's boundary re-raises
every one of them as a single `ValueError ("Invalid expression: " + str(e))`,
so the only exception kind that ever escapes `safe_eval_expr` is
`valueError`. -/
inductive PyExc where
  | valueError (msg : String)
  | zeroDivisionError (msg : String)
  | typeError (msg : String)
  | syntaxError (msg : String)
deriving DecidableEq

/-- Message text of an exception, modelling Python's `str(e)`. -/
def PyExc.msg : PyExc → String
  | .valueError m => m
  | .zeroDivisionError m => m
  | .typeError m => m
  | .syntaxError m => m

/-- Decide whether an evaluation result is a success. -/
def resOk (r : Except PyExc Value) : Bool :=
  match r with
  | .ok _ => true
  | .error _ => false

/-- Numeric value of a Python bool (`True == 1`, `False == 0`). -/
def boolToZ (b : Bool) : ℤ := if b then 1 else 0

/-- View a value as a Python `int` for arithmetic purposes; covers `bool`,
which Python arithmetic coerces to `int`. -/
def intView : Value → Option ℤ
  | .int z => some z
  | .bool b => some (boolToZ b)
  | _ => none

/-- Rational magnitude of a non-complex value. -/
def toQ : Value → ℚ
  | .int z => (z : ℚ)
  | .float q => q
  | .bool b => (boolToZ b : ℚ)
  | .complex => 0

/-- Whether a value is a complex number. -/
def isComplexV : Value → Bool
  | .complex => true
  | _ => false

/-- Whether a value is numerically exactly zero (the divisor test performed by
Python before raising ZeroDivisionError). -/
def isZeroNum : Value → Bool
  | .int z => z == 0
  | .float q => q == 0
  | .bool b => !b
  | .complex => false

/-- Whether a value is a real number in the sense of the spec, i.e. a Python
`int` or `float` (not a bool, not complex). -/
def isRealNum : Value → Bool
  | .int _ => true
  | .float _ => true
  | _ => false

/-- Python `==` between values, restricted to the real/bool cases the theorems
use; comparisons involving the payload-free complex values are abstracted to
`false` and are never relied upon. -/
def pyNumEq (a b : Value) : Bool :=
  if isComplexV a || isComplexV b then false else toQ a == toQ b

/-- Integer power of a rational, total (inverse for negative exponents). -/
def qzpow (q : ℚ) (z : ℤ) : ℚ :=
  if 0 ≤ z then q ^ z.toNat else (q⁻¹) ^ (-z).toNat

/-- Round-half-to-even of a rational, the semantics of Python's builtin
`round` on a float. -/
def roundHalfEven (q : ℚ) : ℤ :=
  let f : ℤ := q.floor
  let r : ℚ := q - (f : ℚ)
  if r < 1/2 then f
  else if (1:ℚ)/2 < r then f + 1
  else if f % 2 = 0 then f else f + 1

/-- Model of Python's binary `+` (`operator.add`) on the value kinds that can
occur: bools coerce to ints, any float makes the result float, complex is
contagious. -/
def op_add (a b : Value) : Except PyExc Value :=
  if isComplexV a || isComplexV b then .ok .complex
  else match intView a, intView b with
    | some x, some y => .ok (.int (x + y))
    | _, _ => .ok (.float (toQ a + toQ b))

/-- Model of Python's binary `-` (`operator.sub`). -/
def op_sub (a b : Value) : Except PyExc Value :=
  if isComplexV a || isComplexV b then .ok .complex
  else match intView a, intView b with
    | some x, some y => .ok (.int (x - y))
    | _, _ => .ok (.float (toQ a - toQ b))

/-- Model of Python's binary `*` (`operator.mul`). -/
def op_mul (a b : Value) : Except PyExc Value :=
  if isComplexV a || isComplexV b then .ok .complex
  else match intView a, intView b with
    | some x, some y => .ok (.int (x * y))
    | _, _ => .ok (.float (toQ a * toQ b))

/-- Model of Python's true division `/` (`operator.truediv`): a divisor that
is exactly zero raises ZeroDivisionError; otherwise the result is a float
(complex if an operand is complex).  Division by an abstracted complex value
is itself abstracted to a complex result. -/
def op_truediv (a b : Value) : Except PyExc Value :=
  if isZeroNum b then .error (.zeroDivisionError "division by zero")
  else if isComplexV a || isComplexV b then .ok .complex
  else .ok (.float (toQ a / toQ b))

/-- Model of Python's `%` (`operator.mod`): TypeError on complex operands,
ZeroDivisionError on an exactly-zero divisor, floor-convention modulo
otherwise (`Int.fmod` on ints, `a - b * floor (a / b)` on floats, matching
the sign-of-divisor behaviour of Python). -/
def op_mod (a b : Value) : Except PyExc Value :=
  if isComplexV a || isComplexV b then
    .error (.typeError "unsupported operand type for mod")
  else if isZeroNum b then .error (.zeroDivisionError "modulo by zero")
  else match intView a, intView b with
    | some x, some y => .ok (.int (Int.fmod x y))
    | _, _ =>
        let qa := toQ a
        let qb := toQ b
        .ok (.float (qa - qb * ((qa / qb).floor : ℚ)))

/-- Magnitude placeholder for a power with positive base and non-integral
exponent (an irrational real); no theorem depends on it. -/
def powApprox (_base _exp : ℚ) : ℚ := 0

/-- Model of Python's `**` (`operator.pow`): int ** nonnegative int is an
exact int; a negative int exponent gives a float (ZeroDivisionError on base
0); with floats, a zero base errors on a negative exponent, a positive base
gives a float, and a NEGATIVE base with a non-integral exponent gives a
COMPLEX number (CPython computes it via complex exponentials rather than
raising).  Powers involving an abstracted complex operand stay complex. -/
def op_pow (a b : Value) : Except PyExc Value :=
  if isComplexV a || isComplexV b then .ok .complex
  else match intView a, intView b with
    | some x, some e =>
        if 0 ≤ e then .ok (.int (x ^ e.toNat))
        else if x = 0 then
          .error (.zeroDivisionError "0.0 cannot be raised to a negative power")
        else .ok (.float (qzpow (x : ℚ) e))
    | _, _ =>
        let base := toQ a
        let e := toQ b
        if base = 0 then
          if e < 0 then
            .error (.zeroDivisionError "0.0 cannot be raised to a negative power")
          else if e = 0 then .ok (.float 1)
          else .ok (.float 0)
        else if 0 < base then
          if e.den = 1 then .ok (.float (qzpow base e.num))
          else .ok (.float (powApprox base e))
        else
          if e.den = 1 then .ok (.float (qzpow base e.num))
          else .ok .complex

/-- Model of Python's unary `-` (`operator.neg`): total on all value kinds
that occur; negating a bool yields an int. -/
def op_neg : Value → Value
  | .int z => .int (-z)
  | .float q => .float (-q)
  | .bool b => .int (-(boolToZ b))
  | .complex => .complex

/-- Model of Python's unary `+` (`operator.pos`): identity on ints and
floats, coerces a bool to an int. -/
def op_pos : Value → Value
  | .int z => .int z
  | .float q => .float q
  | .bool b => .int (boolToZ b)
  | .complex => .complex

/-- The binary-operator rows of the `_ALLOWED_OPERATORS` table (python5.py
lines 21-30): Add, Sub, Mult, Div, Pow, Mod and nothing else.  `none` means
the operator type is not a key of the table. -/
inductive BOp where
  | add | sub | mult | div | mod | pow
  | floorDiv | matMult | bitOr | bitXor | bitAnd | lshiftOp | rshiftOp
deriving DecidableEq

/-- Unary operator node kinds (`ast.USub`, `ast.UAdd`, `ast.Invert`). -/
inductive UOp where
  | usub | uadd | invert
deriving DecidableEq

/-- Binary rows of `_ALLOWED_OPERATORS`. -/
def ALLOWED_BIN_OPERATORS : BOp → Option (Value → Value → Except PyExc Value)
  | .add => some op_add
  | .sub => some op_sub
  | .mult => some op_mul
  | .div => some op_truediv
  | .pow => some op_pow
  | .mod => some op_mod
  | _ => none

/-- Unary rows of `_ALLOWED_OPERATORS` (USub ↦ operator.neg,
UAdd ↦ operator.pos). -/
def ALLOWED_UNARY_OPERATORS : UOp → Option (Value → Except PyExc Value)
  | .usub => some (fun v => .ok (op_neg v))
  | .uadd => some (fun v => .ok (op_pos v))
  | .invert => none

/-- Real (float-convertible) view of an argument, modelling the implicit
`float()` conversion done by the math-module functions; `none` for complex
arguments, which raise TypeError there. -/
def floatArg : Value → Option ℚ
  | .complex => none
  | v => some (toQ v)

/-- Magnitude placeholder for an irrational square root. -/
def sqrtApprox (_q : ℚ) : ℚ := 0

/-- Magnitude placeholder for trigonometric results. -/
def trigApprox (_q : ℚ) : ℚ := 0

/-- Magnitude placeholder for logarithms. -/
def logApprox (_q : ℚ) : ℚ := 0

/-- Model of `math.sqrt`: TypeError on complex or wrong arity, ValueError
("math domain error") on a negative argument, float result otherwise. -/
def math_sqrt : List Value → Except PyExc Value
  | [v] =>
      match floatArg v with
      | none => .error (.typeError "must be real number, not complex")
      | some q =>
          if q < 0 then .error (.valueError "math domain error")
          else .ok (.float (sqrtApprox q))
  | _ => .error (.typeError "sqrt expected exactly one argument")

/-- Model of `math.sin`. -/
def math_sin : List Value → Except PyExc Value
  | [v] =>
      match floatArg v with
      | none => .error (.typeError "must be real number, not complex")
      | some q => .ok (.float (trigApprox q))
  | _ => .error (.typeError "sin expected exactly one argument")

/-- Model of `math.cos`. -/
def math_cos : List Value → Except PyExc Value
  | [v] =>
      match floatArg v with
      | none => .error (.typeError "must be real number, not complex")
      | some q => .ok (.float (trigApprox q))
  | _ => .error (.typeError "cos expected exactly one argument")

/-- Model of `math.tan`. -/
def math_tan : List Value → Except PyExc Value
  | [v] =>
      match floatArg v with
      | none => .error (.typeError "must be real number, not complex")
      | some q => .ok (.float (trigApprox q))
  | _ => .error (.typeError "tan expected exactly one argument")

/-- Model of `math.log` (natural log; optional base argument as in CPython):
ValueError ("math domain error") on a non-positive argument or base,
ZeroDivisionError on base 1. -/
def math_log : List Value → Except PyExc Value
  | [v] =>
      match floatArg v with
      | none => .error (.typeError "must be real number, not complex")
      | some q =>
          if q ≤ 0 then .error (.valueError "math domain error")
          else .ok (.float (logApprox q))
  | [v, b] =>
      match floatArg v, floatArg b with
      | some q, some qb =>
          if q ≤ 0 || qb ≤ 0 then .error (.valueError "math domain error")
          else if qb = 1 then .error (.zeroDivisionError "float division by zero")
          else .ok (.float (logApprox q))
      | _, _ => .error (.typeError "must be real number, not complex")
  | _ => .error (.typeError "log expected at most two arguments")

/-- Model of `math.log10`. -/
def math_log10 : List Value → Except PyExc Value
  | [v] =>
      match floatArg v with
      | none => .error (.typeError "must be real number, not complex")
      | some q =>
          if q ≤ 0 then .error (.valueError "math domain error")
          else .ok (.float (logApprox q))
  | _ => .error (.typeError "log10 expected exactly one argument")

/-- Model of the builtin `abs`: exact on ints, floats and bools; the modulus
of an abstracted complex value is an abstracted float. -/
def builtin_abs : List Value → Except PyExc Value
  | [.int z] => .ok (.int |z|)
  | [.float q] => .ok (.float |q|)
  | [.bool b] => .ok (.int (boolToZ b))
  | [.complex] => .ok (.float 0)
  | _ => .error (.typeError "abs expected exactly one argument")

/-- Banker's rounding of a rational at a signed decimal position. -/
def roundDigits (q : ℚ) (k : ℤ) : ℚ :=
  ((roundHalfEven (q * qzpow 10 k) : ℚ)) * qzpow 10 (-k)

/-- Model of the builtin `round`: one-argument round of a float is
round-half-to-even to an int; rounding an int (or a bool — `int.__round__`
returns self) returns it unchanged; complex raises TypeError; the optional
second argument must be an integer and keeps the float type. -/
def builtin_round : List Value → Except PyExc Value
  | [.float q] => .ok (.int (roundHalfEven q))
  | [.int z] => .ok (.int z)
  | [.bool b] => .ok (.bool b)
  | [.complex] => .error (.typeError "type complex does not define __round__")
  | [v, n] =>
      match v, intView n with
      | .complex, _ => .error (.typeError "type complex does not define __round__")
      | _, none => .error (.typeError "argument cannot be interpreted as an integer")
      | .float q, some k => .ok (.float (roundDigits q k))
      | .int z, some k =>
          if 0 ≤ k then .ok (.int z) else .ok (.int (roundDigits (z : ℚ) k).num)
      | .bool b, some _ => .ok (.int (boolToZ b))
  | _ => .error (.typeError "round expected at most two arguments")

/-- The `_ALLOWED_FUNCTIONS` table (python5.py lines 33-42): exactly the
eight names sqrt, sin, cos, tan, log, log10, abs, round. -/
def ALLOWED_FUNCTIONS : String → Option (List Value → Except PyExc Value) :=
  fun s =>
    if s = "sqrt" then some math_sqrt
    else if s = "sin" then some math_sin
    else if s = "cos" then some math_cos
    else if s = "tan" then some math_tan
    else if s = "log" then some math_log
    else if s = "log10" then some math_log10
    else if s = "abs" then some builtin_abs
    else if s = "round" then some builtin_round
    else none

/-- Exact rational value of the IEEE-754 double `math.pi`. -/
def mathPi : ℚ := (884279719003555 : ℚ) / 281474976710656

/-- Exact rational value of the IEEE-754 double `math.e`. -/
def mathE : ℚ := (6121026514868073 : ℚ) / 2251799813685248

/-- Rendering placeholder for Python's shortest round-trip repr of a
non-integral float; it is some fixed function of the exact value (all
concrete renderings pinned by theorems involve integral floats only). -/
def floatRepr (q : ℚ) : String := toString q.num ++ "/" ++ toString q.den

/-- Model of Python's `str` on a float: `str(4.0) = "4.0"` for integral
values, shortest round-trip representation otherwise. -/
def pyStrOfFloat (q : ℚ) : String :=
  if q.den = 1 then toString q.num ++ ".0" else floatRepr q

/-- Model of Python's `str` on the value kinds that occur; the rendering of
an abstracted complex value is itself abstracted. -/
def pyStr : Value → String
  | .int z => toString z
  | .float q => pyStrOfFloat q
  | .bool b => if b then "True" else "False"
  | .complex => "complex"

/-- The result-formatting policy of Calculator.evaluate (python5.py lines
239-242): a float with integral value is converted to an int before
rendering, everything else is rendered with `str`. -/
def formatResult (v : Value) : String :=
  match v with
  | .float q => if q.den = 1 then pyStr (.int q.num) else pyStr (.float q)
  | v => pyStr v

/-- Lexical tokens of the expression language, modelling CPython's tokenizer
restricted to the characters reachable from calculator input.  `eqTok` is a
single `=` (legal only as the keyword-argument marker inside a call) and
`eqeqTok` is `==` (a comparison, which no production of the modelled
evaluator accepts — `_eval` rejects the `Compare` node it would build). -/
inductive Token where
  | const (v : PyConst)
  | ident (s : String)
  | plus | minus | star | dstar | slash | dslash | percent | tilde
  | amp | pipe | caret | lshiftT | rshiftT | atSign
  | lparen | rparen | comma
  | eqTok | eqeqTok
deriving DecidableEq

/-- Intra-line whitespace characters skipped by the tokenizer: space, tab and
formfeed (CPython treats `\x0c` as whitespace).  Newlines are NOT in this
set; the tokenizer gives them line-structure meaning. -/
def isSpaceChar (c : Char) : Bool :=
  c = ' ' || c = '\t' || c = '\x0C'

/-- Newline characters (`\n` and `\r`). -/
def isNlChar (c : Char) : Bool :=
  c = '\n' || c = '\r'

/-- Characters that can start an identifier. -/
def isIdentStart (c : Char) : Bool := c.isAlpha || c = '_'

/-- Characters that can continue an identifier. -/
def isIdentChar (c : Char) : Bool := c.isAlphanum || c = '_'

/-- The closed character set the tokenizer recognizes — including `=`
(keyword arguments and `==`), `#` (comments), the backslash (line
continuation), newlines and formfeed; any character outside the set (such
as `$`, `!`, quotes, brackets or braces) makes lexing fail.  In CPython
those characters either fail tokenization outright or can only produce
nodes (strings, comparisons, subscripts, dicts, lambdas, walrus) that
`_eval` rejects, so evaluation fails either way. -/
def charOK (c : Char) : Bool :=
  c.isAlphanum || c = '_' || c = '.' || c = '(' || c = ')' || c = ',' ||
  c = '+' || c = '-' || c = '*' || c = '/' || c = '%' || c = '~' ||
  c = '&' || c = '|' || c = '^' || c = '<' || c = '>' || c = '@' ||
  c = '=' || c = '#' || c = '\\' ||
  isSpaceChar c || isNlChar c

/-- Numeric value of a list of decimal digit characters. -/
def digitsVal (ds : List Char) : ℤ :=
  ds.foldl (fun a c => a * 10 + ((c.toNat - 48 : Nat) : ℤ)) 0

/-- Value of one digit character in radix up to 16. -/
def hexDigitVal (c : Char) : ℤ :=
  if c.isDigit then ((c.toNat - 48 : Nat) : ℤ)
  else if 'a' ≤ c && c ≤ 'f' then ((c.toNat - 87 : Nat) : ℤ)
  else if 'A' ≤ c && c ≤ 'F' then ((c.toNat - 55 : Nat) : ℤ)
  else 0

/-- Digit test for a radix literal (16, 8 or 2). -/
def isRadixDigit (base : Nat) (c : Char) : Bool :=
  if base = 16 then c.isDigit || ('a' ≤ c && c ≤ 'f') || ('A' ≤ c && c ≤ 'F')
  else if base = 8 then '0' ≤ c && c ≤ '7'
  else c = '0' || c = '1'

/-- Numeric value of a list of radix digits. -/
def radixVal (base : Nat) (ds : List Char) : ℤ :=
  ds.foldl (fun a c => a * (base : ℤ) + hexDigitVal c) 0

/-- Scan a hex/octal/binary integer literal body (after `0x`, `0o`, `0b`);
at least one digit is required. -/
def scanRadix (base : Nat) (l : List Char) :
    Except PyExc (Token × List Char) :=
  let p := l.span (isRadixDigit base)
  if p.1 = [] then .error (.syntaxError "invalid literal")
  else .ok (.const (.int (radixVal base p.1)), p.2)

/-- Finish a decimal literal: optional imaginary suffix, then decide int
versus float.  Integer literals with leading zeros are rejected, as in
Python 3. -/
def finishNum (ip : List Char) (fp : Option (List Char)) (ex : Option ℤ)
    (rest : List Char) : Except PyExc (Token × List Char) :=
  match rest with
  | 'j' :: t => .ok (.const .complexLit, t)
  | 'J' :: t => .ok (.const .complexLit, t)
  | _ =>
    match fp, ex with
    | none, none =>
        if ip.head? = some '0' && ip.any (fun c => c ≠ '0') then
          .error (.syntaxError "leading zeros in decimal integer literals are not permitted")
        else .ok (.const (.int (digitsVal ip)), rest)
    | _, _ =>
        let mant : ℚ :=
          (digitsVal ip : ℚ) +
            (match fp with
             | some ds => (digitsVal ds : ℚ) / ((10 : ℚ) ^ ds.length)
             | none => 0)
        let v : ℚ := match ex with
          | some e => mant * qzpow 10 e
          | none => mant
        .ok (.const (.float v), rest)

/-- Scan a decimal numeric literal (integer part, optional fraction, optional
exponent, optional imaginary suffix) starting at the head of `l`. -/
def scanDecimal (l : List Char) : Except PyExc (Token × List Char) :=
  let p1 := l.span Char.isDigit
  let ip := p1.1
  let q : Option (List Char) × List Char :=
    match p1.2 with
    | '.' :: r =>
        let p2 := r.span Char.isDigit
        (some p2.1, p2.2)
    | _ => (none, p1.2)
  let fp := q.1
  let r2 := q.2
  if ip = [] && (fp = none || fp = some []) then
    .error (.syntaxError "invalid syntax")
  else
    match r2 with
    | c :: rr =>
        if c = 'e' || c = 'E' then
          let s : ℤ × List Char :=
            match rr with
            | '+' :: t => (1, t)
            | '-' :: t => (-1, t)
            | _ => (1, rr)
          let p3 := s.2.span Char.isDigit
          if p3.1 = [] then .error (.syntaxError "invalid decimal literal")
          else finishNum ip fp (some (s.1 * digitsVal p3.1)) p3.2
        else finishNum ip fp none r2
    | [] => finishNum ip fp none []

/-- Scan one numeric literal (dispatching on a radix marker). -/
def scanNumber (l : List Char) : Except PyExc (Token × List Char) :=
  match l with
  | '0' :: c :: rest =>
      if c = 'x' || c = 'X' then scanRadix 16 rest
      else if c = 'o' || c = 'O' then scanRadix 8 rest
      else if c = 'b' || c = 'B' then scanRadix 2 rest
      else scanDecimal l
  | _ => scanDecimal l

/-- Scan an identifier or keyword constant (`True`, `False`, `None`). -/
def scanIdent (l : List Char) : Token × List Char :=
  let p := l.span isIdentChar
  let s : String := String.mk p.1
  if s = "True" then (.const (.bool true), p.2)
  else if s = "False" then (.const (.bool false), p.2)
  else if s = "None" then (.const .noneV, p.2)
  else (.ident s, p.2)

/-- Whether the remainder of the input after the expression's terminating
newline is blank: only whitespace, newlines and comments may follow
(CPython accepts trailing blank and comment lines in eval mode but any
further content is a syntax error).  Fuel-indexed; each step consumes at
least one character. -/
def restBlank : Nat → List Char → Bool
  | 0, _ => false
  | _ + 1, [] => true
  | n + 1, c :: cs =>
      if isSpaceChar c || isNlChar c then restBlank n cs
      else if c = '#' then restBlank n (cs.dropWhile (fun x => !isNlChar x))
      else false

/-- Leading line structure of CPython's tokenizer in eval mode: blank lines
and comment-only lines before the expression are skipped, and the first
content line must carry no indentation — leading spaces or tabs are an
"unexpected indent" error, except that a formfeed resets the indentation
(so only spaces/tabs AFTER the last formfeed of the leading run count).
Returns the input starting at the first content character. -/
def skipBlankPrefix : Nat → List Char → Except PyExc (List Char)
  | 0, _ => .error (.syntaxError "lexer fuel exhausted")
  | n + 1, cs =>
      let p := cs.span isSpaceChar
      match p.2 with
      | [] => .ok []
      | '\n' :: r => skipBlankPrefix n r
      | '\r' :: r => skipBlankPrefix n r
      | '#' :: r => skipBlankPrefix n (r.dropWhile (fun x => !isNlChar x))
      | c :: r =>
          if (p.1.reverse.takeWhile (fun x => x = ' ' || x = '\t')).isEmpty then
            .ok (c :: r)
          else .error (.syntaxError "unexpected indent")

/-- Fuel-indexed tokenizer loop over the content of the expression; each
step consumes at least one character, so fuel `length + 1` suffices.
`depth` is the open-parenthesis depth, which governs line structure exactly
as in CPython: inside parentheses a newline is ordinary whitespace, while
at depth 0 a newline terminates the expression — the rest of the input must
then be blank.  A backslash immediately followed by a newline is a line
continuation; `#` starts a comment running to the end of the line (the
newline itself is kept for the depth logic). -/
def lexLoop : Nat → Nat → List Char → Except PyExc (List Token)
  | 0, _, _ => .error (.syntaxError "lexer fuel exhausted")
  | _ + 1, _, [] => .ok []
  | n + 1, depth, c :: cs =>
      if isNlChar c then
        if depth = 0 then
          if restBlank (cs.length + 1) cs then .ok []
          else .error (.syntaxError "invalid syntax")
        else lexLoop n depth cs
      else if isSpaceChar c then lexLoop n depth cs
      else if c = '\\' then
        match cs with
        | '\r' :: '\n' :: t => lexLoop n depth t
        | '\n' :: t => lexLoop n depth t
        | '\r' :: t => lexLoop n depth t
        | _ => .error (.syntaxError "unexpected character after line continuation character")
      else if c = '#' then
        lexLoop n depth (cs.dropWhile (fun x => !isNlChar x))
      else if c.isDigit || c = '.' then
        match scanNumber (c :: cs) with
        | .ok (tok, rest) => (lexLoop n depth rest).map (tok :: ·)
        | .error e => .error e
      else if isIdentStart c then
        let p := scanIdent (c :: cs)
        (lexLoop n depth p.2).map (p.1 :: ·)
      else if c = '*' then
        match cs with
        | '*' :: t => (lexLoop n depth t).map (Token.dstar :: ·)
        | _ => (lexLoop n depth cs).map (Token.star :: ·)
      else if c = '/' then
        match cs with
        | '/' :: t => (lexLoop n depth t).map (Token.dslash :: ·)
        | _ => (lexLoop n depth cs).map (Token.slash :: ·)
      else if c = '<' then
        match cs with
        | '<' :: t => (lexLoop n depth t).map (Token.lshiftT :: ·)
        | _ => .error (.syntaxError "invalid syntax")
      else if c = '>' then
        match cs with
        | '>' :: t => (lexLoop n depth t).map (Token.rshiftT :: ·)
        | _ => .error (.syntaxError "invalid syntax")
      else if c = '=' then
        match cs with
        | '=' :: t => (lexLoop n depth t).map (Token.eqeqTok :: ·)
        | _ => (lexLoop n depth cs).map (Token.eqTok :: ·)
      else if c = '+' then (lexLoop n depth cs).map (Token.plus :: ·)
      else if c = '-' then (lexLoop n depth cs).map (Token.minus :: ·)
      else if c = '%' then (lexLoop n depth cs).map (Token.percent :: ·)
      else if c = '~' then (lexLoop n depth cs).map (Token.tilde :: ·)
      else if c = '&' then (lexLoop n depth cs).map (Token.amp :: ·)
      else if c = '|' then (lexLoop n depth cs).map (Token.pipe :: ·)
      else if c = '^' then (lexLoop n depth cs).map (Token.caret :: ·)
      else if c = '@' then (lexLoop n depth cs).map (Token.atSign :: ·)
      else if c = '(' then (lexLoop n (depth + 1) cs).map (Token.lparen :: ·)
      else if c = ')' then (lexLoop n (depth - 1) cs).map (Token.rparen :: ·)
      else if c = ',' then (lexLoop n depth cs).map (Token.comma :: ·)
      else .error (.syntaxError "invalid character")

/-- Tokenize a whole input string: the character-set check, the leading
blank-line/indent handling, then the main loop at depth 0.  The up-front
character-set check is observationally equivalent to failing at the
offending character (the token stream is produced only when every character
is consumed) and makes the guarantee "an unrecognized character fails
lexing" directly visible. -/
def pyLex (s : String) : Except PyExc (List Token) :=
  let cs := s.toList
  if cs.all charOK then
    match skipBlankPrefix (cs.length + 1) cs with
    | .ok rest => lexLoop (rest.length + 1) 0 rest
    | .error e => .error e
  else .error (.syntaxError "invalid character")

/-- Abstract syntax tree, modelling the `ast` node kinds reachable from
calculator input.  Argument, keyword and tuple element lists are encoded as
`argsCons` chains so that the tree is a single non-nested inductive type
(plain structural recursion then evaluates by `rfl`/`decide`).  A `call`
carries, like `ast.Call`, both its positional argument list (`args`) and
its keyword list (`keywords`, a chain of `keywordA` nodes); `_eval` reads
only `node.args`, so the keyword chain — names AND value subtrees — is
never evaluated.  `argsKw` is the parser's internal pairing of the two
chains of one argument list and never appears inside a parsed expression. -/
inductive Ast where
  | constant (v : PyConst)
  | name (id : String)
  | binOp (left : Ast) (op : BOp) (right : Ast)
  | unaryOp (op : UOp) (operand : Ast)
  | call (func : Ast) (args : Ast) (keywords : Ast)
  | tuple (elts : Ast)
  | expression (body : Ast)
  | argsNil
  | argsCons (head : Ast) (tail : Ast)
  | keywordA (name : String) (value : Ast)
  | argsKw (args : Ast) (keywords : Ast)
deriving DecidableEq

/-- Binary operator recognized at precedence level `k` of the grammar
(0 = `|`, 1 = `^`, 2 = `&`, 3 = shifts, 4 = additive, 5 = multiplicative),
matching Python's expression grammar on the modelled operator set. -/
def levelOps : Nat → Token → Option BOp
  | 0, .pipe => some .bitOr
  | 1, .caret => some .bitXor
  | 2, .amp => some .bitAnd
  | 3, .lshiftT => some .lshiftOp
  | 3, .rshiftT => some .rshiftOp
  | 4, .plus => some .add
  | 4, .minus => some .sub
  | 5, .star => some .mult
  | 5, .slash => some .div
  | 5, .dslash => some .floorDiv
  | 5, .percent => some .mod
  | 5, .atSign => some .matMult
  | _, _ => none

/-- Work items of the recursive-descent parser: a precedence level, the
left-associative continuation loop of a level, unary/power/primary/atom
productions, the postfix call loop, call-argument lists (`callArgs` for the
positional phase, `kwArgs` once the first `name=value` keyword appears —
a positional argument after a keyword is a syntax error, as in CPython),
and tuple tails (which admit no keywords). -/
inductive ParseJob where
  | lvl (k : Nat)
  | binLoop (k : Nat) (acc : Ast)
  | factor
  | power
  | primary
  | atomJ
  | callLoop (acc : Ast)
  | callArgs
  | kwArgs
  | tupleTail

/-- One fuel-indexed parsing function covering all productions, modelling
`ast.parse(_, mode='eval')` on the token stream: precedence climbing with
additive below multiplicative below unary below right-associative `**`
(whose right operand is again a unary `factor`), postfix call application on
any primary, call argument lists with positional arguments followed by
`name=value` keyword arguments (keywords first is fine, a positional after a
keyword is rejected, trailing commas allowed), parenthesized expressions,
and tuple displays (which evaluate to an unsupported node; tuples admit no
keyword elements). -/
def parseRun : Nat → ParseJob → List Token → Except PyExc (Ast × List Token)
  | 0, _, _ => .error (.syntaxError "expression too deeply nested")
  | n + 1, .lvl k, toks =>
      if k < 6 then
        match parseRun n (.lvl (k + 1)) toks with
        | .ok (a, r) => parseRun n (.binLoop k a) r
        | .error e => .error e
      else parseRun n .factor toks
  | n + 1, .binLoop k acc, toks =>
      match toks with
      | t :: rest =>
          match levelOps k t with
          | some o =>
              match parseRun n (.lvl (k + 1)) rest with
              | .ok (rhs, r2) => parseRun n (.binLoop k (.binOp acc o rhs)) r2
              | .error e => .error e
          | none => .ok (acc, toks)
      | [] => .ok (acc, [])
  | n + 1, .factor, toks =>
      match toks with
      | .plus :: t =>
          match parseRun n .factor t with
          | .ok (a, r) => .ok (.unaryOp .uadd a, r)
          | .error e => .error e
      | .minus :: t =>
          match parseRun n .factor t with
          | .ok (a, r) => .ok (.unaryOp .usub a, r)
          | .error e => .error e
      | .tilde :: t =>
          match parseRun n .factor t with
          | .ok (a, r) => .ok (.unaryOp .invert a, r)
          | .error e => .error e
      | _ => parseRun n .power toks
  | n + 1, .power, toks =>
      match parseRun n .primary toks with
      | .ok (b, r) =>
          match r with
          | .dstar :: t =>
              match parseRun n .factor t with
              | .ok (e, r2) => .ok (.binOp b .pow e, r2)
              | .error e => .error e
          | _ => .ok (b, r)
      | .error e => .error e
  | n + 1, .primary, toks =>
      match parseRun n .atomJ toks with
      | .ok (a, r) => parseRun n (.callLoop a) r
      | .error e => .error e
  | n + 1, .callLoop acc, toks =>
      match toks with
      | .lparen :: t =>
          match parseRun n .callArgs t with
          | .ok (.argsKw args kws, r) => parseRun n (.callLoop (.call acc args kws)) r
          | .ok (_, _) => .error (.syntaxError "invalid syntax")
          | .error e => .error e
      | _ => .ok (acc, toks)
  | n + 1, .callArgs, toks =>
      match toks with
      | .rparen :: t => .ok (.argsKw .argsNil .argsNil, t)
      | .ident _ :: .eqTok :: _ =>
          match parseRun n .kwArgs toks with
          | .ok (kws, r) => .ok (.argsKw .argsNil kws, r)
          | .error e => .error e
      | _ =>
          match parseRun n (.lvl 0) toks with
          | .ok (e, r) =>
              match r with
              | .rparen :: t => .ok (.argsKw (.argsCons e .argsNil) .argsNil, t)
              | .comma :: t =>
                  match parseRun n .callArgs t with
                  | .ok (.argsKw a k, t2) => .ok (.argsKw (.argsCons e a) k, t2)
                  | .ok (_, _) => .error (.syntaxError "invalid syntax")
                  | .error er => .error er
              | _ => .error (.syntaxError "invalid syntax")
          | .error e => .error e
  | n + 1, .kwArgs, toks =>
      match toks with
      | .rparen :: t => .ok (.argsNil, t)
      | .ident s :: .eqTok :: rest =>
          match parseRun n (.lvl 0) rest with
          | .ok (e, r) =>
              match r with
              | .rparen :: t => .ok (.argsCons (.keywordA s e) .argsNil, t)
              | .comma :: t =>
                  match parseRun n .kwArgs t with
                  | .ok (chain, t2) => .ok (.argsCons (.keywordA s e) chain, t2)
                  | .error er => .error er
              | _ => .error (.syntaxError "invalid syntax")
          | .error e => .error e
      | _ => .error (.syntaxError "invalid syntax")
  | n + 1, .tupleTail, toks =>
      match toks with
      | .rparen :: t => .ok (.argsNil, t)
      | _ =>
          match parseRun n (.lvl 0) toks with
          | .ok (e, r) =>
              match r with
              | .rparen :: t => .ok (.argsCons e .argsNil, t)
              | .comma :: t =>
                  match parseRun n .tupleTail t with
                  | .ok (chain, t2) => .ok (.argsCons e chain, t2)
                  | .error er => .error er
              | _ => .error (.syntaxError "invalid syntax")
          | .error e => .error e
  | n + 1, .atomJ, toks =>
      match toks with
      | .const v :: r => .ok (.constant v, r)
      | .ident s :: r => .ok (.name s, r)
      | .lparen :: r =>
          match r with
          | .rparen :: t => .ok (.tuple .argsNil, t)
          | _ =>
              match parseRun n (.lvl 0) r with
              | .ok (e, r2) =>
                  match r2 with
                  | .rparen :: t => .ok (e, t)
                  | .comma :: t =>
                      match parseRun n .tupleTail t with
                      | .ok (chain, t2) => .ok (.tuple (.argsCons e chain), t2)
                      | .error er => .error er
                  | _ => .error (.syntaxError "invalid syntax")
              | .error e => .error e
      | _ => .error (.syntaxError "invalid syntax")

/-- Fuel that always suffices for `parseRun`: between two token consumptions
the parser makes at most a constant number of recursive calls (descending
through the finitely many precedence levels). -/
def parseFuel (toks : List Token) : Nat := 16 * (toks.length + 1) + 16

/-- Model of `ast.parse(expr, mode='eval')`: tokenize, parse one expression,
require the whole token stream to be consumed, and wrap the body in an
`Expression` node (the `mode='eval'` wrapper, line 52 of the source). -/
def pyParseEval (s : String) : Except PyExc Ast :=
  match pyLex s with
  | .ok toks =>
      match parseRun (parseFuel toks) (.lvl 0) toks with
      | .ok (a, rest) =>
          if rest = [] then .ok (.expression a)
          else .error (.syntaxError "invalid syntax")
      | .error e => .error e
  | .error e => .error e

/-- Result of evaluating one tree node: a value for expression nodes, a list
of values for the `argsCons` chains of a call's argument list. -/
inductive EvRes where
  | val (v : Value)
  | vals (l : List Value)
deriving DecidableEq

/-- Translation of `_eval` (python5.py lines 51-91), one branch per
`isinstance` test of the source:
* `Expression` unwraps to its body (line 52);
* numeric constants are returned directly — in CPython ≥ 3.8 `ast.Num` is a
  deprecation shim whose instance check accepts any `Constant` whose value
  has type int, float or complex, so line 54 returns int, float AND complex
  literals; a bool constant is not an `ast.Num` (its type is `bool`) but
  passes the `isinstance(node.value, (int, float))` check of line 57 because
  `bool` subclasses `int`, so `True`/`False` are returned as values; `None`
  and strings raise (line 60);
* `BinOp`/`UnaryOp` evaluate operands first and then dispatch through
  `_ALLOWED_OPERATORS`, raising on any operator type not in the table
  (lines 61-73);
* `Call` requires the callee to be a plain `Name` that is a key of
  `_ALLOWED_FUNCTIONS` — checked BEFORE evaluating the arguments — and
  raises "Unsupported function call" otherwise (lines 74-80); only
  `node.args` is read: the keyword list (`node.keywords`) is silently
  ignored, its names and value subexpressions never evaluated, so
  `abs(4, x = 1/0)` succeeds with 4;
* a `Name` is only `pi` or `e` (lines 81-87);
* every other node kind (tuples in particular) raises (lines 90-91).
The `argsNil`/`argsCons` branches evaluate an argument chain left to right,
mirroring the list comprehension of line 78. -/
def evalAst : Ast → Except PyExc EvRes
  | .expression b => evalAst b
  | .constant c =>
      match c with
      | .int z => .ok (.val (.int z))
      | .float q => .ok (.val (.float q))
      | .complexLit => .ok (.val .complex)
      | .bool b => .ok (.val (.bool b))
      | .noneV => .error (.valueError "Unsupported constant: None")
  | .name id =>
      if id = "pi" then .ok (.val (.float mathPi))
      else if id = "e" then .ok (.val (.float mathE))
      else .error (.valueError ("Unsupported identifier: " ++ id))
  | .binOp l o r =>
      match evalAst l with
      | .ok (.val a) =>
          match evalAst r with
          | .ok (.val b) =>
              match ALLOWED_BIN_OPERATORS o with
              | some f =>
                  match f a b with
                  | .ok v => .ok (.val v)
                  | .error e => .error e
              | none => .error (.valueError "Unsupported binary operator")
          | .ok (.vals _) => .error (.valueError "Unsupported expression")
          | .error e => .error e
      | .ok (.vals _) => .error (.valueError "Unsupported expression")
      | .error e => .error e
  | .unaryOp o a =>
      match evalAst a with
      | .ok (.val v) =>
          match ALLOWED_UNARY_OPERATORS o with
          | some f =>
              match f v with
              | .ok w => .ok (.val w)
              | .error e => .error e
          | none => .error (.valueError "Unsupported unary operator")
      | .ok (.vals _) => .error (.valueError "Unsupported expression")
      | .error e => .error e
  | .call f args _kws =>
      match f with
      | .name fn =>
          match ALLOWED_FUNCTIONS fn with
          | some impl =>
              match evalAst args with
              | .ok (.vals vs) =>
                  match impl vs with
                  | .ok v => .ok (.val v)
                  | .error e => .error e
              | .ok (.val _) => .error (.valueError "Unsupported expression")
              | .error e => .error e
          | none => .error (.valueError "Unsupported function call")
      | _ => .error (.valueError "Unsupported function call")
  | .tuple _ => .error (.valueError "Unsupported expression: Tuple")
  | .keywordA _ _ => .error (.valueError "Unsupported expression")
  | .argsKw _ _ => .error (.valueError "Unsupported expression")
  | .argsNil => .ok (.vals [])
  | .argsCons h t =>
      match evalAst h with
      | .ok (.val v) =>
          match evalAst t with
          | .ok (.vals vs) => .ok (.vals (v :: vs))
          | .ok (.val _) => .error (.valueError "Unsupported expression")
          | .error e => .error e
      | .ok (.vals _) => .error (.valueError "Unsupported expression")
      | .error e => .error e

/-- Evaluate a tree to a single value (`_eval` applied to an expression
node). -/
def evalNode (a : Ast) : Except PyExc Value :=
  match evalAst a with
  | .ok (.val v) => .ok v
  | .ok (.vals _) => .error (.valueError "Unsupported expression")
  | .error e => .error e

/-- Translation of `safe_eval_expr` (python5.py lines 45-97): parse in eval
mode, walk the tree with `_eval`, and re-raise any exception at the boundary
as `ValueError("Invalid expression: " + str(e))` — the single failure kind
the function can produce. -/
def safe_eval_expr (expr : String) : Except PyExc Value :=
  match pyParseEval expr with
  | .ok tree =>
      match evalNode tree with
      | .ok v => .ok v
      | .error e => .error (.valueError ("Invalid expression: " ++ e.msg))
  | .error e => .error (.valueError ("Invalid expression: " ++ e.msg))

/-- The whitespace set of Python's `str.strip()`: space, tab, newline,
carriage return, vertical tab and formfeed. -/
def isStripSpace (c : Char) : Bool :=
  c = ' ' || c = '\t' || c = '\n' || c = '\r' || c = '\x0B' || c = '\x0C'

/-- Python `str.strip()` on a character list: drop leading and trailing
whitespace. -/
def pyStripL (l : List Char) : List Char :=
  ((l.dropWhile isStripSpace).reverse.dropWhile isStripSpace).reverse

/-- Python `str.strip()` on a string. -/
def pyStrip (s : String) : String := String.mk (pyStripL s.toList)

/-- Python `str.isdigit()` restricted to ASCII: non-empty and all digits. -/
def str_isdigit (t : String) : Bool :=
  !t.toList.isEmpty && t.toList.all Char.isDigit

/-- Text before the first occurrence of `sep` in `l`, or `none` when `sep`
does not occur: the combination of Python's `sep in text` test and
`text.split(sep, 1)[0]`. -/
def findSep (sep : List Char) : List Char → Option (List Char)
  | [] => if sep.isPrefixOf [] then some [] else none
  | c :: rest =>
      if sep.isPrefixOf (c :: rest) then some []
      else (findSep sep rest).map (c :: ·)

/-- State of the `Calculator` session (python5.py lines 100-168): the display
buffer with the tk insertion-cursor offset (clamped to the buffer length on
use), the `result_shown` flag, the history list of `"expr = result"`
strings, and the last answer string.  Widget layout, clipboard and the
listbox rendering of the history window are GUI details outside the model;
the listbox contents are always `history_window history`. -/
structure CalcState where
  display : String
  cursor : Nat
  result_shown : Bool
  history : List String
  last_answer : String
deriving DecidableEq

namespace Calculator

/-- Translation of `Calculator.insert_text` (lines 170-182): after a shown
result, a digit, `(` or `.` replaces the whole buffer (the cursor position
after a full tk replacement is a GUI detail, modelled as end-of-text);
otherwise the text is spliced at the insertion cursor, which then advances
past it. -/
def insert_text (st : CalcState) (txt : String) : CalcState :=
  if st.result_shown && (str_isdigit txt || txt = "(" || txt = ".") then
    { st with display := txt, result_shown := false, cursor := txt.length }
  else
    let pos := min st.cursor st.display.length
    let cur := st.display
    { st with
        display := cur.take pos ++ txt ++ cur.drop pos
        cursor := pos + txt.length }

/-- Translation of `Calculator.clear` (lines 196-198). -/
def clear (st : CalcState) : CalcState :=
  { st with display := "", result_shown := false }

/-- Translation of `Calculator.backspace` (lines 200-206): delete the
character before the cursor, no-op at position 0. -/
def backspace (st : CalcState) : CalcState :=
  let pos := min st.cursor st.display.length
  if 0 < pos then
    { st with
        display := st.display.take (pos - 1) ++ st.display.drop pos
        cursor := pos - 1 }
  else st

/-- Translation of `Calculator.toggle_sign` (lines 208-220): on an empty
buffer do nothing; otherwise evaluate the whole buffer, and on success
replace it with `str(-val)` (Python's default rendering of the negated
value) and set `result_shown`; on any failure fall back to inserting the
text `"(-"` at the cursor. -/
def toggle_sign (st : CalcState) : CalcState :=
  if st.display = "" then st
  else
    match safe_eval_expr st.display with
    | .ok val => { st with display := pyStr (op_neg val), result_shown := true }
    | .error _ => insert_text st "(-"

/-- Translation of `Calculator._add_history` (lines 251-258): skip when the
entry equals the immediately preceding one, append, trim to 50 entries by
evicting the front.  The guard `self.history and self.history[-1] == entry`
is exactly `h.getLast? = some entry` (an empty history has no last entry). -/
def add_history (h : List String) (entry : String) : List String :=
  if h.getLast? = some entry then h
  else
    let h2 := h ++ [entry]
    if 50 < h2.length then h2.drop 1 else h2

/-- The history window shown in the listbox (lines 259-262): the last 10
entries, reversed so the newest is first. -/
def history_window (h : List String) : List String :=
  (h.drop (h.length - 10)).reverse

/-- Translation of `Calculator.evaluate` (lines 233-249): strip the buffer;
on an empty result do nothing; otherwise run `safe_eval_expr`, and on
success render the value under the formatting policy, show it, remember it
as the last answer and append `"expr = result"` to the history; on failure
show the literal marker `"Error"`. -/
def evaluate (st : CalcState) : CalcState :=
  let expr := pyStrip st.display
  if expr = "" then st
  else
    match safe_eval_expr expr with
    | .ok result =>
        let s := formatResult result
        { st with
            display := s
            result_shown := true
            last_answer := s
            history := add_history st.history (expr ++ " = " ++ s) }
    | .error _ => { st with display := "Error", result_shown := true }

/-- Translation of `Calculator.on_history_select` (lines 264-273) applied to
the text of the selected row: when `" = "` occurs in it, the buffer becomes
the part before its first occurrence. -/
def on_history_select (st : CalcState) (text : String) : CalcState :=
  match findSep " = ".toList text.toList with
  | some e => { st with display := String.mk e }
  | none => st

end Calculator

theorem eval_empty_fails : resOk (safe_eval_expr "") = false := by decide

/-- Whether an AST node is a plain `ast.Name` (the `isinstance(node.func,
ast.Name)` test of line 75). -/
def isNameAst : Ast → Bool
  | .name _ => true
  | _ => false

/-- The Python exception class of a failure result (`none` on success). -/
def failureKind : Except PyExc Value → Option String
  | .ok _ => none
  | .error (.valueError _) => some "ValueError"
  | .error (.zeroDivisionError _) => some "ZeroDivisionError"
  | .error (.typeError _) => some "TypeError"
  | .error (.syntaxError _) => some "SyntaxError"

theorem getLast?_drop_lt {α : Type} :
    ∀ (l : List α) (n : Nat), n < l.length → (l.drop n).getLast? = l.getLast?
  | [], n, h => absurd h (by simp)
  | _ :: _, 0, _ => rfl
  | x :: t, n + 1, h => by
      have hn : n < t.length := by simpa using h
      have ht : t ≠ [] := by
        intro h0
        rw [h0] at hn
        simp at hn
      rw [List.drop_succ_cons, getLast?_drop_lt t n hn]
      cases t with
      | nil => exact absurd rfl ht
      | cons y u => rw [List.getLast?_cons_cons]

/-- C5: parsing respects standard arithmetic precedence (multiplication binds
below addition is refuted, above it is confirmed: `3 + 4 * 2` parses as
`3 + (4 * 2)` and evaluates to 11) and `**` is right-associative
(`2**3**2` parses as `2**(3**2)` and evaluates to 512). -/
theorem c5_precedence :
    pyParseEval "3 + 4 * 2" =
      .ok (.expression (.binOp (.constant (.int 3)) .add
        (.binOp (.constant (.int 4)) .mult (.constant (.int 2)))))
  ∧ safe_eval_expr "3 + 4 * 2" = .ok (.int 11)
  ∧ pyParseEval "2**3**2" =
      .ok (.expression (.binOp (.constant (.int 2)) .pow
        (.binOp (.constant (.int 3)) .pow (.constant (.int 2)))))
  ∧ safe_eval_expr "2**3**2" = .ok (.int 512) := by
  refine ⟨?_, ?_, ?_, ?_⟩ <;> rfl

/-- C2 (code bug): `safe_eval_expr` can return a COMPLEX number — Python
evaluates `(-1)**0.5` to `(6.123233995736766e-17+1j)` instead of raising —
and can return a BOOLEAN, because `bool` is a subclass of `int` and passes
the `isinstance(node.value, (int, float))` filter; both contradict the
numeric-only contract of the function's own docstring and constant filter. -/
theorem c2_nonreal_results_escape :
    safe_eval_expr "(-1)**0.5" = .ok .complex
  ∧ isRealNum .complex = false
  ∧ safe_eval_expr "True" = .ok (.bool true)
  ∧ isRealNum (.bool true) = false := by
  refine ⟨?_, ?_, ?_, ?_⟩ <;> rfl

/-- C3 counterexample: the code has no DomainError kind distinct from
LexError and SyntaxError — `safe_eval_expr` re-raises every internal failure
as the single exception class ValueError, so the failure of `10/0` (a domain
failure per the spec) has exactly the same kind as the failure of the
malformed input `2**(3+1` (a syntax failure per the spec). -/
theorem c3_failure_kind_not_distinct :
    failureKind (safe_eval_expr "10/0") = some "ValueError"
  ∧ failureKind (safe_eval_expr "2**(3+1") = some "ValueError"
  ∧ failureKind (safe_eval_expr "10/0") = failureKind (safe_eval_expr "2**(3+1")
  ∧ failureKind (safe_eval_expr "sqrt(-1)") = some "ValueError" := by
  refine ⟨?_, ?_, ?_, ?_⟩ <;> rfl

/-- C9 counterexample: on a buffer that evaluates to the integral float 4.0,
`toggle_sign` sets the buffer to `str(-4.0) = "-4.0"`, NOT to the formatted
result `"-4"` demanded by the result-formatting policy (which drops the
trailing fractional component of integral values). -/
theorem c9_toggle_sign_counterexample :
    safe_eval_expr "8/2" = .ok (.float 4)
  ∧ (Calculator.toggle_sign ⟨"8/2", 3, false, [], ""⟩).display = "-4.0"
  ∧ formatResult (op_neg (.float 4)) = "-4"
  ∧ (Calculator.toggle_sign ⟨"8/2", 3, false, [], ""⟩).display
      ≠ formatResult (op_neg (.float 4)) := by
  refine ⟨?_, ?_, ?_, ?_⟩
  · rfl
  · rfl
  · rfl
  · decide

/-- C1: evaluation dispatches only through the whitelist tables — a `Call`
whose callee is a name outside `_ALLOWED_FUNCTIONS` (or is not a plain name
at all), a `Name` other than `pi`/`e`, a binary operator outside the six
whitelisted ones, or a unary operator other than `+`/`-` can never produce a
success, whatever its operands do; in particular `evaluate("foo(1)")` fails.
There is no fallback: these are the only dispatch sites of `_eval`. -/
theorem c1_whitelist_dispatch :
    (∀ fn : String, ALLOWED_FUNCTIONS fn = none →
       ∀ (args kws : Ast) (x : Value), evalNode (.call (.name fn) args kws) ≠ .ok x)
  ∧ (∀ f args kws : Ast, isNameAst f = false →
       ∀ x : Value, evalNode (.call f args kws) ≠ .ok x)
  ∧ (∀ id : String, id ≠ "pi" → id ≠ "e" →
       ∀ x : Value, evalNode (.name id) ≠ .ok x)
  ∧ (∀ o : BOp, ALLOWED_BIN_OPERATORS o = none →
       ∀ (l r : Ast) (x : Value), evalNode (.binOp l o r) ≠ .ok x)
  ∧ (∀ o : UOp, ALLOWED_UNARY_OPERATORS o = none →
       ∀ (a : Ast) (x : Value), evalNode (.unaryOp o a) ≠ .ok x)
  ∧ resOk (safe_eval_expr "foo(1)") = false := by
  refine ⟨?_, ?_, ?_, ?_, ?_, ?_⟩
  · intro fn h args kws x hok
    simp [evalNode, evalAst, h] at hok
  · intro f args kws hnf x hok
    cases f <;> simp [isNameAst] at hnf <;> simp [evalNode, evalAst] at hok
  · intro id h1 h2 x hok
    simp [evalNode, evalAst, h1, h2] at hok
  · intro o h l r x hok
    cases hl : evalAst l with
    | error e => simp [evalNode, evalAst, hl] at hok
    | ok res =>
        cases res with
        | vals L => simp [evalNode, evalAst, hl] at hok
        | val a =>
            cases hr : evalAst r with
            | error e => simp [evalNode, evalAst, hl, hr] at hok
            | ok res2 =>
                cases res2 with
                | vals L => simp [evalNode, evalAst, hl, hr] at hok
                | val b => simp [evalNode, evalAst, hl, hr, h] at hok
  · intro o h a x hok
    cases ha : evalAst a with
    | error e => simp [evalNode, evalAst, ha] at hok
    | ok res =>
        cases res with
        | vals L => simp [evalNode, evalAst, ha] at hok
        | val v => simp [evalNode, evalAst, ha, h] at hok
  · rfl

/-- Witness for C1 at concrete inputs: the unknown function `foo`, a call on
a non-name callee, the unknown identifier `x`, the floor-division operator
and the bitwise-invert operator are all rejected. -/
theorem c1_whitelist_dispatch_witness :
    ALLOWED_FUNCTIONS "foo" = none
  ∧ evalNode (.call (.name "foo") (.argsCons (.constant (.int 1)) .argsNil) .argsNil)
      ≠ .ok (.int 1)
  ∧ isNameAst (.constant (.int 2)) = false
  ∧ evalNode (.call (.constant (.int 2)) .argsNil .argsNil) ≠ .ok (.int 0)
  ∧ evalNode (.name "x") ≠ .ok (.int 0)
  ∧ ALLOWED_BIN_OPERATORS .floorDiv = none
  ∧ evalNode (.binOp (.constant (.int 1)) .floorDiv (.constant (.int 2)))
      ≠ .ok (.int 0)
  ∧ ALLOWED_UNARY_OPERATORS .invert = none
  ∧ evalNode (.unaryOp .invert (.constant (.int 1))) ≠ .ok (.int 0) :=
  ⟨rfl,
   c1_whitelist_dispatch.1 "foo" rfl _ _ _,
   rfl,
   c1_whitelist_dispatch.2.1 (.constant (.int 2)) .argsNil .argsNil rfl (.int 0),
   c1_whitelist_dispatch.2.2.1 "x" (by decide) (by decide) _,
   rfl,
   c1_whitelist_dispatch.2.2.2.1 .floorDiv rfl _ _ _,
   rfl,
   c1_whitelist_dispatch.2.2.2.2.1 .invert rfl _ _⟩

/-- C3 (amended): division or modulo with an exactly-zero right operand, and
sqrt/log/log10 on an out-of-domain argument, make evaluation fail rather
than return infinity or NaN — `evaluate("10/0")` and `evaluate("sqrt(-1)")`
both fail — but every failure surfaces as the code's single ValueError kind
(the message, not the exception class, reflects the cause); there is no
DomainError kind distinct from lex/syntax failures. -/
theorem c3_domain_failures :
    resOk (safe_eval_expr "10/0") = false
  ∧ resOk (safe_eval_expr "sqrt(-1)") = false
  ∧ (∀ v w : Value, isZeroNum w = true →
       (∀ x, op_truediv v w ≠ .ok x) ∧ (∀ x, op_mod v w ≠ .ok x))
  ∧ (∀ q : ℚ, q < 0 →
       math_sqrt [.float q] = .error (.valueError "math domain error"))
  ∧ (∀ q : ℚ, q ≤ 0 →
       math_log [.float q] = .error (.valueError "math domain error"))
  ∧ (∀ q : ℚ, q ≤ 0 →
       math_log10 [.float q] = .error (.valueError "math domain error")) := by
  refine ⟨rfl, rfl, ?_, ?_, ?_, ?_⟩
  · intro v w hz
    constructor
    · intro x hok
      simp [op_truediv, hz] at hok
    · intro x hok
      by_cases hc : (isComplexV v || isComplexV w) = true
      · simp [op_mod, hc] at hok
      · simp [op_mod, hc, hz] at hok
  · intro q hq
    simp [math_sqrt, floatArg, toQ, hq]
  · intro q hq
    simp [math_log, floatArg, toQ, hq]
  · intro q hq
    simp [math_log10, floatArg, toQ, hq]

/-- Witness for C3 at concrete inputs: division and modulo of 10 by the int
zero fail, and sqrt/log/log10 at -1, 0 and -2 fail with the domain message. -/
theorem c3_domain_failures_witness :
    isZeroNum (.int 0) = true
  ∧ op_truediv (.int 10) (.int 0) ≠ .ok (.int 0)
  ∧ op_mod (.int 10) (.int 0) ≠ .ok (.int 0)
  ∧ math_sqrt [.float (-1)] = .error (.valueError "math domain error")
  ∧ math_log [.float 0] = .error (.valueError "math domain error")
  ∧ math_log10 [.float (-2)] = .error (.valueError "math domain error") :=
  ⟨rfl,
   (c3_domain_failures.2.2.1 (.int 10) (.int 0) rfl).1 (.int 0),
   (c3_domain_failures.2.2.1 (.int 10) (.int 0) rfl).2 (.int 0),
   c3_domain_failures.2.2.2.1 (-1) (by norm_num),
   c3_domain_failures.2.2.2.2.1 0 (by norm_num),
   c3_domain_failures.2.2.2.2.2 (-2) (by norm_num)⟩

/-- C4: evaluation is a pure function of the input string.  In this model
`safe_eval_expr` is a total function, so two evaluations of the same string
are literally the same term; at the session level the evaluator's outcome
depends only on the display string and not on any other session state, and
a failed evaluation leaves history, last answer and cursor untouched (the
source's except-branch writes only the display and the shown flag).  The
source of `safe_eval_expr` (lines 45-97) reads nothing but its argument and
the module-level constant tables and performs no I/O. -/
theorem c4_evaluate_pure :
    (∀ s : String, safe_eval_expr s = safe_eval_expr s)
  ∧ (∀ st₁ st₂ : CalcState, st₁.display = st₂.display →
       (Calculator.evaluate st₁).display = (Calculator.evaluate st₂).display)
  ∧ (∀ st : CalcState, resOk (safe_eval_expr (pyStrip st.display)) = false →
       (Calculator.evaluate st).history = st.history
     ∧ (Calculator.evaluate st).last_answer = st.last_answer
     ∧ (Calculator.evaluate st).cursor = st.cursor) := by
  refine ⟨fun s => rfl, ?_, ?_⟩
  · intro st₁ st₂ h
    by_cases he : pyStrip st₂.display = ""
    · simp [Calculator.evaluate, h, he]
    · cases hr : safe_eval_expr (pyStrip st₂.display) with
      | ok v => simp [Calculator.evaluate, h, he, hr]
      | error e => simp [Calculator.evaluate, h, he, hr]
  · intro st hf
    by_cases he : pyStrip st.display = ""
    · refine ⟨?_, ?_, ?_⟩ <;> simp [Calculator.evaluate, he]
    · cases hr : safe_eval_expr (pyStrip st.display) with
      | ok v =>
          exfalso
          rw [hr] at hf
          exact Bool.noConfusion hf
      | error e => refine ⟨?_, ?_, ?_⟩ <;> simp [Calculator.evaluate, he, hr]

/-- Witness for C4 at concrete states: two states sharing the display
`"1+1"` but differing elsewhere evaluate to the same display, and the
failing display `"foo"` leaves history, last answer and cursor unchanged. -/
theorem c4_evaluate_pure_witness :
    (⟨"1+1", 0, false, [], ""⟩ : CalcState).display
      = (⟨"1+1", 3, true, ["a = 1"], "7"⟩ : CalcState).display
  ∧ (Calculator.evaluate ⟨"1+1", 0, false, [], ""⟩).display
      = (Calculator.evaluate ⟨"1+1", 3, true, ["a = 1"], "7"⟩).display
  ∧ resOk (safe_eval_expr (pyStrip (⟨"foo", 2, false, ["h"], "9"⟩ : CalcState).display)) = false
  ∧ (Calculator.evaluate ⟨"foo", 2, false, ["h"], "9"⟩).history = ["h"]
  ∧ (Calculator.evaluate ⟨"foo", 2, false, ["h"], "9"⟩).last_answer = "9"
  ∧ (Calculator.evaluate ⟨"foo", 2, false, ["h"], "9"⟩).cursor = 2 :=
  ⟨rfl,
   c4_evaluate_pure.2.1 ⟨"1+1", 0, false, [], ""⟩ ⟨"1+1", 3, true, ["a = 1"], "7"⟩ rfl,
   rfl,
   (c4_evaluate_pure.2.2 ⟨"foo", 2, false, ["h"], "9"⟩ rfl).1,
   (c4_evaluate_pure.2.2 ⟨"foo", 2, false, ["h"], "9"⟩ rfl).2.1,
   (c4_evaluate_pure.2.2 ⟨"foo", 2, false, ["h"], "9"⟩ rfl).2.2⟩

/-- C6 counterexample: `evaluate("True")` and `evaluate("1")` both succeed
with the same numeric value (Python's `True == 1`), yet they render as
`"True"` and `"1"` — the formatted result is NOT a function of the numeric
value alone once the boolean leak of C2 is taken into account. -/
theorem c6_format_counterexample :
    safe_eval_expr "True" = .ok (.bool true)
  ∧ safe_eval_expr "1" = .ok (.int 1)
  ∧ pyNumEq (.bool true) (.int 1) = true
  ∧ formatResult (.bool true) = "True"
  ∧ formatResult (.int 1) = "1"
  ∧ formatResult (.bool true) ≠ formatResult (.int 1) := by
  refine ⟨?_, ?_, ?_, ?_, ?_, ?_⟩
  · rfl
  · rfl
  · rfl
  · rfl
  · rfl
  · decide

/-- C6 (amended): restricted to real results (ints and floats), the
formatted result is a function of the numeric value only — two successful
evaluations with numerically equal int/float results render identically,
a float with zero fractional part renders without a trailing fractional
component, and `evaluate("2+2")` displays `"4"`.  Boolean results (the C2
leak) escape the policy and render as `"True"`/`"False"`. -/
theorem c6_format_by_value :
    (∀ (s₁ s₂ : String) (v₁ v₂ : Value),
       safe_eval_expr s₁ = .ok v₁ → safe_eval_expr s₂ = .ok v₂ →
       isRealNum v₁ = true → isRealNum v₂ = true → pyNumEq v₁ v₂ = true →
       formatResult v₁ = formatResult v₂)
  ∧ (∀ q : ℚ, q.den = 1 → formatResult (.float q) = toString q.num)
  ∧ (Calculator.evaluate ⟨"2+2", 0, false, [], ""⟩).display = "4" := by
  refine ⟨?_, ?_, rfl⟩
  · intro s₁ s₂ v₁ v₂ _ _ hr₁ hr₂ heq
    cases v₁ with
    | int z₁ =>
        cases v₂ with
        | int z₂ =>
            simp [pyNumEq, isComplexV, toQ] at heq
            exact congrArg (fun z => formatResult (.int z)) (Int.cast_injective heq)
        | float q₂ =>
            simp [pyNumEq, isComplexV, toQ] at heq
            rw [← heq]
            simp [formatResult, pyStr, Rat.den_intCast, Rat.num_intCast]
        | bool b => simp [isRealNum] at hr₂
        | complex => simp [isRealNum] at hr₂
    | float q₁ =>
        cases v₂ with
        | int z₂ =>
            simp [pyNumEq, isComplexV, toQ] at heq
            rw [heq]
            simp [formatResult, pyStr, Rat.den_intCast, Rat.num_intCast]
        | float q₂ =>
            simp [pyNumEq, isComplexV, toQ] at heq
            rw [heq]
        | bool b => simp [isRealNum] at hr₂
        | complex => simp [isRealNum] at hr₂
    | bool b => simp [isRealNum] at hr₁
    | complex => simp [isRealNum] at hr₁
  · intro q h
    simp [formatResult, h, pyStr]

/-- Witness for C6: `2+2` and `8/2` both evaluate to the numeric value 4 —
one as the int 4, one as the float 4.0 — and render identically as `"4"`;
the float 4.0 has denominator 1 and renders as `"4"`. -/
theorem c6_format_by_value_witness :
    safe_eval_expr "2+2" = .ok (.int 4)
  ∧ safe_eval_expr "8/2" = .ok (.float 4)
  ∧ isRealNum (.int 4) = true
  ∧ isRealNum (.float 4) = true
  ∧ pyNumEq (.int 4) (.float 4) = true
  ∧ formatResult (.int 4) = formatResult (.float 4)
  ∧ (4 : ℚ).den = 1
  ∧ formatResult (.float 4) = toString (4 : ℚ).num :=
  ⟨rfl, rfl, rfl, rfl, by decide,
   c6_format_by_value.1 "2+2" "8/2" (.int 4) (.float 4) rfl rfl rfl rfl (by decide),
   rfl,
   c6_format_by_value.2.1 4 rfl⟩

/-- C9 (amended): on a non-empty buffer that evaluates successfully,
`toggle_sign` replaces the buffer with Python's default rendering
`str(-val)` of the negated value (which KEEPS the trailing `.0` of an
integral float, unlike the result-formatting policy) and sets
`result_shown`; when evaluation fails it instead splices the marker `"(-"`
at the cursor, leaving `result_shown` unchanged (not necessarily unset). -/
theorem c9_toggle_sign :
    (∀ (st : CalcState) (v : Value), st.display ≠ "" →
       safe_eval_expr st.display = .ok v →
       Calculator.toggle_sign st
         = { st with display := pyStr (op_neg v), result_shown := true })
  ∧ (∀ st : CalcState, st.display ≠ "" →
       resOk (safe_eval_expr st.display) = false →
       Calculator.toggle_sign st = Calculator.insert_text st "(-"
     ∧ (Calculator.toggle_sign st).result_shown = st.result_shown) := by
  constructor
  · intro st v hne hok
    simp [Calculator.toggle_sign, hne, hok]
  · intro st hne hfail
    cases hr : safe_eval_expr st.display with
    | ok v =>
        exfalso
        rw [hr] at hfail
        exact Bool.noConfusion hfail
    | error e =>
        constructor
        · simp [Calculator.toggle_sign, hne, hr]
        · have h1 : str_isdigit "(-" = false := by decide
          simp [Calculator.toggle_sign, hne, hr, Calculator.insert_text, h1]

/-- Witness for C9: the buffer `8/2` evaluates to the float 4.0 and toggling
yields the buffer `-4.0` with the flag set; the unevaluable buffer `1+`
gets `(-` spliced at the cursor with the flag untouched. -/
theorem c9_toggle_sign_witness :
    safe_eval_expr "8/2" = .ok (.float 4)
  ∧ Calculator.toggle_sign ⟨"8/2", 3, false, [], ""⟩
      = ⟨"-4.0", 3, true, [], ""⟩
  ∧ resOk (safe_eval_expr "1+") = false
  ∧ Calculator.toggle_sign ⟨"1+", 2, true, [], ""⟩
      = Calculator.insert_text ⟨"1+", 2, true, [], ""⟩ "(-"
  ∧ (Calculator.toggle_sign ⟨"1+", 2, true, [], ""⟩).result_shown = true :=
  ⟨rfl,
   c9_toggle_sign.1 ⟨"8/2", 3, false, [], ""⟩ (.float 4) (by decide) rfl,
   rfl,
   (c9_toggle_sign.2 ⟨"1+", 2, true, [], ""⟩ (by decide) rfl).1,
   (c9_toggle_sign.2 ⟨"1+", 2, true, [], ""⟩ (by decide) rfl).2⟩

/-- C7: the history invariants hold — `add_history` keeps the history at no
more than 50 entries; appending a distinct 51st entry evicts exactly the
oldest one, leaving the remaining 49 plus the new entry; adding the same
entry twice consecutively changes nothing the second time; the displayed
window is the most recent `min 10 n` entries, newest first (its reverse is
a suffix of the history and its head is the history's last entry); and
every session operation other than a successful `evaluate` leaves the
history untouched while `evaluate` preserves the 50-entry bound. -/
theorem c7_history_invariants :
    (∀ (h : List String) (e : String), h.length ≤ 50 →
       (Calculator.add_history h e).length ≤ 50)
  ∧ (∀ (h : List String) (e : String), h.length = 50 → h.getLast? ≠ some e →
       Calculator.add_history h e = h.drop 1 ++ [e])
  ∧ (∀ (h : List String) (e : String),
       Calculator.add_history (Calculator.add_history h e) e
         = Calculator.add_history h e)
  ∧ (∀ h : List String,
       (Calculator.history_window h).reverse <:+ h
     ∧ (Calculator.history_window h).length = min 10 h.length
     ∧ (h ≠ [] → (Calculator.history_window h).head? = h.getLast?))
  ∧ (∀ (st : CalcState) (txt text : String), st.history.length ≤ 50 →
       (Calculator.evaluate st).history.length ≤ 50
     ∧ (Calculator.toggle_sign st).history = st.history
     ∧ (Calculator.insert_text st txt).history = st.history
     ∧ (Calculator.clear st).history = st.history
     ∧ (Calculator.backspace st).history = st.history
     ∧ (Calculator.on_history_select st text).history = st.history) := by
  have hadd : ∀ (h : List String) (e : String), h.length ≤ 50 →
      (Calculator.add_history h e).length ≤ 50 := by
    intro h e hle
    rw [Calculator.add_history]
    by_cases hd : h.getLast? = some e
    · simpa [hd] using hle
    · simp only [hd, if_false]
      by_cases hlen : 50 < (h ++ [e]).length
      · rw [if_pos hlen, List.length_drop]
        simp only [List.length_append, List.length_singleton]
        omega
      · rw [if_neg hlen]
        simp only [List.length_append, List.length_singleton] at hlen ⊢
        omega
  refine ⟨hadd, ?_, ?_, ?_, ?_⟩
  · intro h e hlen hne
    rw [Calculator.add_history]
    simp only [hne, if_false]
    have hgt : 50 < (h ++ [e]).length := by simp [hlen]
    simp only [hgt, if_true]
    have h1 : (1 : ℕ) ≤ h.length := by omega
    exact List.drop_append_of_le_length h1
  · intro h e
    have hlast : (Calculator.add_history h e).getLast? = some e := by
      rw [Calculator.add_history]
      by_cases hd : h.getLast? = some e
      · simp [hd]
      · simp only [hd, if_false]
        by_cases hlen : 50 < (h ++ [e]).length
        · simp only [hlen, if_true]
          have hh : h ≠ [] := by
            intro h0
            rw [h0] at hlen
            simp at hlen
          have hdrop : (h ++ [e]).drop 1 = h.drop 1 ++ [e] :=
            List.drop_append_of_le_length (by
              cases h with
              | nil => exact absurd rfl hh
              | cons a t => simp)
          rw [hdrop, List.getLast?_concat]
        · simp only [hlen, if_false]
          rw [List.getLast?_concat]
    conv_lhs => rw [Calculator.add_history]
    simp [hlast]
  · intro h
    refine ⟨?_, ?_, ?_⟩
    · rw [Calculator.history_window, List.reverse_reverse]
      exact List.drop_suffix _ _
    · rw [Calculator.history_window]
      simp [List.length_drop]
      omega
    · intro hne
      rw [Calculator.history_window, List.head?_reverse]
      have hlt : h.length - 10 < h.length := by
        cases h with
        | nil => exact absurd rfl hne
        | cons a t => simp; omega
      exact getLast?_drop_lt h (h.length - 10) hlt
  · intro st txt text hle
    refine ⟨?_, ?_, ?_, ?_, ?_, ?_⟩
    · rw [Calculator.evaluate]
      by_cases he : pyStrip st.display = ""
      · simp [he, hle]
      · cases hr : safe_eval_expr (pyStrip st.display) with
        | ok v => simp [he, hr]; exact hadd _ _ hle
        | error e => simp [he, hr, hle]
    · rw [Calculator.toggle_sign]
      by_cases he : st.display = ""
      · simp [he]
      · cases hr : safe_eval_expr st.display with
        | ok v => simp [he, hr]
        | error e =>
            simp only [he, hr, if_false]
            rw [Calculator.insert_text]
            split <;> rfl
    · rw [Calculator.insert_text]
      split <;> rfl
    · rfl
    · rw [Calculator.backspace]
      split <;> rfl
    · rw [Calculator.on_history_select]
      cases hf : findSep " = ".toList text.toList with
      | some e2 => simp [hf]
      | none => simp [hf]

/-- Witness for C7 at concrete histories: a full 50-entry history evicts its
oldest entry when a distinct 51st entry arrives, re-adding an entry is a
no-op, the display window of a 2-entry history is its reverse, and a
successful evaluation keeps the bound. -/
theorem c7_history_invariants_witness :
    (List.replicate 50 "a").length = 50
  ∧ (List.replicate 50 "a").getLast? ≠ some "b"
  ∧ Calculator.add_history (List.replicate 50 "a") "b"
      = (List.replicate 50 "a").drop 1 ++ ["b"]
  ∧ (Calculator.add_history [] "x").length ≤ 50
  ∧ Calculator.add_history (Calculator.add_history ["y"] "x") "x"
      = Calculator.add_history ["y"] "x"
  ∧ (Calculator.history_window ["a", "b"]).reverse <:+ ["a", "b"]
  ∧ (Calculator.evaluate ⟨"2+2", 0, false, ["h"], ""⟩).history.length ≤ 50 :=
  ⟨by decide, by decide,
   c7_history_invariants.2.1 _ "b" (by decide) (by decide),
   c7_history_invariants.1 [] "x" (by decide),
   c7_history_invariants.2.2.1 ["y"] "x",
   (c7_history_invariants.2.2.2.1 ["a", "b"]).1,
   (c7_history_invariants.2.2.2.2 ⟨"2+2", 0, false, ["h"], ""⟩ "t" "t" (by decide)).1⟩

